import Mathlib

/-!
Verification development for the YouTube-download MCP server
(`fastmcp_server.py`): a shallow embedding of its job registry, job
lifecycle, progress hook and cancellation protocol, together with proofs
of the specified properties.

Modelling conventions:
* Python dictionaries holding the job record become the `Job` structure
  (field names follow `_make_job_entry`); the `JOBS` dict becomes a list
  of `Job` records keyed by their `job_id` field, with dict lookup and
  `JOBS[job_id] = job` modelled by `rlookup` / `rinsert`.
* Byte counts are natural numbers; percentages are rationals. Python's
  `round(x, 2)` (round-half-to-even on the scaled value) is modelled by
  `round2`.
* The asynchronous execution of `_run_yt_dlp_job` interleaved with tool
  calls is modelled as a small-step transition system: `Sys` carries the
  job record plus the phase of the background task, `step` applies one
  atomic event (task start, one progress-hook invocation, successful or
  exceptional termination of the blocking yt-dlp call, a
  `cancel_download` call, or the asyncio task being killed at its await
  point by `task.cancel()`), and `runTrace` folds a trace of events.
* A Python exception is modelled as its type name plus message
  (`PyExc`); the Python standard library call
  `traceback.format_exception_only(type(e), e)` followed by `strip()` is
  modelled by `formatExceptionOnly` (the single line `"<type>: <msg>"`).
-/

/-- Lifecycle states of a job, exactly the strings assigned to
`job['status']` in `fastmcp_server.py`. -/
inductive Status where
  | pending
  | downloading
  | completed
  | error
  | cancelled
  | cancel_requested
  deriving DecidableEq, Repr

/-- The check `job['status'] in ('completed', 'error', 'cancelled')` — the terminal
check used by `cancel_download`. -/
def isTerminal : Status → Bool
  | .completed => true
  | .error => true
  | .cancelled => true
  | _ => false

/-- The `job['progress']` sub-dictionary:
`{"percent": 0.0, "downloaded_bytes": 0, "total_bytes": None}`. -/
structure Progress where
  percent : ℚ
  downloaded_bytes : ℕ
  total_bytes : Option ℕ
  deriving DecidableEq, Repr

/-- One job record, the dictionary produced by `_make_job_entry` (the
`task` field holds the asyncio task handle, modelled as an opaque
number). -/
structure Job where
  job_id : String
  url : String
  status : Status
  progress : Progress
  error_message : Option String
  output_path : Option String
  cancel_requested : Bool
  task : Option ℕ
  deriving DecidableEq, Repr

/-- The builder `_make_job_entry(url, download_path)`. The uuid generated inside is
surfaced as the parameter `id` (uuid generation is nondeterministic IO);
`download_path` is accepted and ignored exactly as in the source. -/
def make_job_entry (id : String) (url : String) (download_path : String) : Job :=
  { job_id := id
    url := url
    status := .pending
    progress := { percent := 0, downloaded_bytes := 0, total_bytes := none }
    error_message := none
    output_path := none
    cancel_requested := false
    task := none }

/-- Round-half-to-even to an integer, the tie rule of Python's built-in
`round`. -/
def roundHalfEven (x : ℚ) : ℤ :=
  if x - (⌊x⌋ : ℚ) < 1/2 then ⌊x⌋
  else if 1/2 < x - (⌊x⌋ : ℚ) then ⌊x⌋ + 1
  else if ⌊x⌋ % 2 = 0 then ⌊x⌋ else ⌊x⌋ + 1

/-- Python's `round(x, 2)`: round to 2 decimal places, ties to even. -/
def round2 (x : ℚ) : ℚ :=
  ((roundHalfEven (x * 100) : ℚ)) / 100

/-- A raw progress sample dictionary `d` as passed by yt-dlp to the
progress hook; `none` models an absent key. -/
structure RawSample where
  status : Option String
  downloaded_bytes : Option ℕ
  total_bytes : Option ℕ
  total_bytes_estimate : Option ℕ
  deriving DecidableEq, Repr

/-- Python's truthiness-based `a or b` on two optional byte counts
(`d.get('total_bytes') or d.get('total_bytes_estimate')`): `None` and
`0` are falsy. -/
def pyOr (a b : Option ℕ) : Option ℕ :=
  match a with
  | some t => if t = 0 then b else some t
  | none => b

/-- The `try`-block of the `progress_hook` closure of
`_run_yt_dlp_job`: how one raw sample transforms `job['progress']`.
The `try/except Exception: pass` is modelled by returning the progress
unchanged on the one failing path: a truthy total with
`downloaded_bytes` absent makes `d.get('downloaded_bytes') / total` a
`TypeError`, which the `except` swallows before any field is written.
A sample whose `status` is neither `'downloading'` nor `'finished'`
matches no branch and changes nothing. -/
def hookProgress (p : Progress) (d : RawSample) : Progress :=
  match d.status with
  | some s =>
    if s = "downloading" then
      match pyOr d.total_bytes d.total_bytes_estimate with
      | some t =>
        if t = 0 then
          { percent := 0
            downloaded_bytes := d.downloaded_bytes.getD 0
            total_bytes := some 0 }
        else
          match d.downloaded_bytes with
          | some dl =>
            { percent := round2 ((dl : ℚ) / (t : ℚ) * 100)
              downloaded_bytes := dl
              total_bytes := some t }
          | none => p
      | none =>
        { percent := 0
          downloaded_bytes := d.downloaded_bytes.getD 0
          total_bytes := none }
    else if s = "finished" then { p with percent := 100 }
    else p
  | none => p

/-- The `progress_hook` closure of `_run_yt_dlp_job`. It only ever
writes inside `job['progress']`; the second component tells whether the
hook then raises `DownloadError('Cancelled by user')` into yt-dlp,
which it does exactly when `job['cancel_requested']` is set. -/
def progress_hook (j : Job) (d : RawSample) : Job × Bool :=
  ({ j with progress := hookProgress j.progress d }, j.cancel_requested)

/-- A Python exception value: its (qualified) type name and its string
message. -/
structure PyExc where
  typeName : String
  msg : String
  deriving DecidableEq, Repr

/-- Modelled from the Python standard library:
`''.join(traceback.format_exception_only(type(e), e)).strip()` yields
the single line `"<qualified type name>: <message>"` (just the type name
when the message is empty). -/
def formatExceptionOnly (e : PyExc) : String :=
  if e.msg = "" then e.typeName else e.typeName ++ ": " ++ e.msg

/-- The global `JOBS` dict, modelled as a list of job records; the dict
key is always the record's own `job_id` field
(`JOBS[job_id] = job` with `job_id = job['job_id']`). -/
abbrev Registry : Type := List Job

/-- Dict lookup `JOBS.get(job_id)`: first record whose `job_id` matches. -/
def rlookup : Registry → String → Option Job
  | [], _ => none
  | j :: rest, id => if j.job_id = id then some j else rlookup rest id

/-- Dict assignment `JOBS[job['job_id']] = job`: replace the record with the same key,
or append a fresh one. -/
def rinsert : Registry → Job → Registry
  | [], j => [j]
  | k :: rest, j =>
    if k.job_id = j.job_id then j :: rest else k :: rinsert rest j

/-- Python values appearing in the job dict, so that the snapshots
returned by `get_download_status` / `list_downloads` can be modelled as
key–value lists. -/
inductive PyVal where
  | str (s : String)
  | stat (s : Status)
  | prog (p : Progress)
  | optStr (o : Option String)
  | boolean (b : Bool)
  | taskHandle (t : Option ℕ)
  deriving DecidableEq, Repr

/-- The pairs `job.items()`: the key–value pairs of one job dict, in the insertion
order of `_make_job_entry`. -/
def jobItems (j : Job) : List (String × PyVal) :=
  [("job_id", .str j.job_id),
   ("url", .str j.url),
   ("status", .stat j.status),
   ("progress", .prog j.progress),
   ("error_message", .optStr j.error_message),
   ("output_path", .optStr j.output_path),
   ("cancel_requested", .boolean j.cancel_requested),
   ("task", .taskHandle j.task)]

/-- The comprehension `{k: v for k, v in job.items() if k != 'task'}` — the snapshot
built by `get_download_status`. -/
def statusSnapshot (items : List (String × PyVal)) : List (String × PyVal) :=
  items.filter (fun p => p.1 ≠ "task")

/-- The comprehension `{k: v for k, v in job.items() if k not in ('task',)}` — the
snapshot built by `list_downloads` for each job. -/
def listSnapshot (items : List (String × PyVal)) : List (String × PyVal) :=
  items.filter (fun p => ¬ (p.1 ∈ ["task"]))

/-- Result of `get_download_status`: either the not-found error dict
`{"error": "job_id not found", "job_id": job_id}` or the cleaned copy of
the job. -/
inductive GetResult where
  | not_found (job_id : String)
  | snapshot (items : List (String × PyVal))
  deriving DecidableEq, Repr

/-- The tool `get_download_status(job_id)`. A job dict is never empty, so the
Python guard `if not job` fires exactly when the id is absent; the
function returns a value in every case and raises nothing. -/
def get_download_status (r : Registry) (job_id : String) : GetResult :=
  match rlookup r job_id with
  | none => .not_found job_id
  | some j => .snapshot (statusSnapshot (jobItems j))

/-- Result of `cancel_download`: the not-found error dict, the
`{"status": "cannot_cancel", ...}` dict carrying the terminal status it
reports, or `{"status": "cancellation_requested", ...}`. -/
inductive CancelResult where
  | not_found (job_id : String)
  | cannot_cancel (already : Status)
  | cancellation_requested
  deriving DecidableEq, Repr

/-- The mutation `cancel_download` performs on a job record it found:
terminal jobs are untouched; otherwise `job['cancel_requested'] = True`
and `job['status'] = 'cancel_requested'` (the intervening
`task.cancel()` attempt touches no job field). -/
def cancel_apply (j : Job) : Job :=
  if isTerminal j.status then j
  else { j with cancel_requested := true, status := .cancel_requested }

/-- The tool `cancel_download(job_id)`: returns the updated registry and the
result dict; never raises. -/
def cancel_download (r : Registry) (job_id : String) : Registry × CancelResult :=
  match rlookup r job_id with
  | none => (r, .not_found job_id)
  | some j =>
    if isTerminal j.status then (r, .cannot_cancel j.status)
    else (rinsert r (cancel_apply j), .cancellation_requested)

/-- The tool `list_downloads()`: brief info for all jobs, `task` excluded. -/
def list_downloads (r : Registry) : List (List (String × PyVal)) :=
  r.map (fun j => listSnapshot (jobItems j))

/-- The tool `download_video(url, download_path)`: builds the job entry, stores
it in `JOBS`, spawns the background task and records its handle in
`job['task']` (the dict in the registry is mutated in place, modelled by
re-inserting), then returns `{"job_id": job_id}`. The body contains no
request validation of any kind. `id` stands for the generated uuid and
`taskH` for the created asyncio task handle. -/
def download_video (r : Registry) (id url download_path : String) (taskH : ℕ) :
    Registry × String :=
  let job := make_job_entry id url download_path
  let r1 := rinsert r job
  (rinsert r1 { job with task := some taskH }, id)

/-- The tool `download_playlist(url, download_path)`: identical job-creation path
to `download_video` (only the yt-dlp options differ). -/
def download_playlist (r : Registry) (id url download_path : String) (taskH : ℕ) :
    Registry × String :=
  let job := make_job_entry id url download_path
  let r1 := rinsert r job
  (rinsert r1 { job with task := some taskH }, id)

/-- Phase of the background asyncio task running `_run_yt_dlp_job` for
one job: created but body not yet entered, inside the `try` running the
blocking yt-dlp call, or finished (terminal write done, or the task
killed by `task.cancel()` before it could write one). -/
inductive Phase where
  | notStarted
  | running
  | done
  deriving DecidableEq, Repr

/-- State of one submitted job together with its background task. -/
structure Sys where
  job : Job
  phase : Phase
  outtmpl : Option String
  deriving DecidableEq, Repr

/-- Atomic events interleaving the background `_run_yt_dlp_job` body
with concurrently issued tool calls on the same job. -/
inductive Event where
  | startRun
  | hook (d : RawSample)
  | finishOk
  | finishExc (e : PyExc)
  | cancel
  | taskKilled
  deriving DecidableEq, Repr

/-- One atomic step of the interleaved execution:
* `startRun` — the task body reaches `job['status'] = 'downloading'`
  and enters the blocking call;
* `hook d` — yt-dlp invokes the progress hook with sample `d`;
* `finishOk` — the blocking call returns: `job['status'] = 'completed'`
  and, the `outtmpl` option being set, `job['output_path']` is recorded
  (`os.path.abspath` is not modelled, no claim depends on the path's
  exact spelling);
* `finishExc e` — the blocking call raises `e`: the `except` block
  reads `job['cancel_requested']` at that moment and classifies the
  outcome as `cancelled` / `error`;
* `cancel` — a `cancel_download` call lands on this job;
* `taskKilled` — the `task.cancel()` issued by a previous
  `cancel_download` delivers `asyncio.CancelledError` at the task's
  await point; `except Exception` does not catch it, so the task dies
  with no further write to the job. -/
def step (s : Sys) : Event → Sys
  | .startRun =>
    if s.phase = .notStarted then
      { s with phase := .running, job := { s.job with status := .downloading } }
    else s
  | .hook d =>
    if s.phase = .running then
      { s with job := (progress_hook s.job d).1 }
    else s
  | .finishOk =>
    if s.phase = .running then
      { s with phase := .done,
               job := { s.job with
                         status := .completed,
                         output_path :=
                           match s.outtmpl with
                           | some o => if o = "" then s.job.output_path else some o
                           | none => s.job.output_path } }
    else s
  | .finishExc e =>
    if s.phase = .running then
      if s.job.cancel_requested then
        { s with phase := .done,
                 job := { s.job with
                           status := .cancelled,
                           error_message := some "Cancelled by user" } }
      else
        { s with phase := .done,
                 job := { s.job with
                           status := .error,
                           error_message := some (formatExceptionOnly e) } }
    else s
  | .cancel => { s with job := cancel_apply s.job }
  | .taskKilled =>
    if s.phase ≠ .done ∧ s.job.cancel_requested then
      { s with phase := .done }
    else s

/-- The state of a freshly submitted `download_video` job: the entry is
in the registry with its task handle set, the task body not yet entered,
and the single-video output template configured. `os.path.join` is
modelled as joining with a slash. -/
def initVideo (id url download_path : String) : Sys :=
  { job := { make_job_entry id url download_path with task := some 0 }
    phase := .notStarted
    outtmpl := some (download_path ++ "/" ++ "%(title)s - %(id)s.%(ext)s") }

/-- Fold a trace of events from a state. -/
def runTrace (s : Sys) (tr : List Event) : Sys :=
  tr.foldl step s

/-- The per-claim state-machine edges actually taken by the code when
the status value changes: `cancel_download` moves any non-terminal job
(`pending` included) to `cancel_requested`, the task body moves
`pending` or `cancel_requested` to `downloading` when it starts, and
termination classifies `downloading`/`cancel_requested` into a terminal
state (never `error` from `cancel_requested`, whose flag forces
`cancelled`). -/
def codeEdge : Status → Status → Bool
  | .pending, .downloading => true
  | .pending, .cancel_requested => true
  | .downloading, .cancel_requested => true
  | .cancel_requested, .downloading => true
  | .downloading, .completed => true
  | .downloading, .error => true
  | .downloading, .cancelled => true
  | .cancel_requested, .completed => true
  | .cancel_requested, .cancelled => true
  | _, _ => false

/-- The state-machine edges as the spec claims them: `pending →
downloading → {completed | error | cancelled}` with the
`cancel_requested` overlay only between `downloading` and a terminal
state. -/
def claimEdge : Status → Status → Bool
  | .pending, .downloading => true
  | .downloading, .completed => true
  | .downloading, .error => true
  | .downloading, .cancelled => true
  | .downloading, .cancel_requested => true
  | .cancel_requested, .completed => true
  | .cancel_requested, .error => true
  | .cancel_requested, .cancelled => true
  | _, _ => false

/-- The internal invariant tying a job's status to the phase of its
background task and to its cancellation flag. -/
def SysInv (s : Sys) : Prop :=
  (s.phase = .notStarted → s.job.status = .pending ∨ s.job.status = .cancel_requested)
  ∧ (s.phase = .running → s.job.status = .downloading ∨ s.job.status = .cancel_requested)
  ∧ (s.job.status = .cancelled → s.job.cancel_requested = true)
  ∧ (s.job.status = .cancel_requested → s.job.cancel_requested = true)

theorem progress_hook_status (j : Job) (d : RawSample) :
    (progress_hook j d).1.status = j.status := rfl

theorem progress_hook_cancel (j : Job) (d : RawSample) :
    (progress_hook j d).1.cancel_requested = j.cancel_requested := rfl

theorem progress_hook_raises (j : Job) (d : RawSample) :
    (progress_hook j d).2 = j.cancel_requested := rfl

theorem rlookup_rinsert_self (r : Registry) (j : Job) :
    rlookup (rinsert r j) j.job_id = some j := by
  induction r with
  | nil => simp [rinsert, rlookup]
  | cons k rest ih =>
    by_cases h : k.job_id = j.job_id
    · simp [rinsert, rlookup, h]
    · simp [rinsert, rlookup, h, ih]

theorem rlookup_job_id (r : Registry) (id : String) (j : Job)
    (h : rlookup r id = some j) : j.job_id = id := by
  induction r with
  | nil => simp [rlookup] at h
  | cons k rest ih =>
    by_cases hk : k.job_id = id
    · simp [rlookup, hk] at h
      rw [← h]
      exact hk
    · simp [rlookup, hk] at h
      exact ih h

theorem sysInv_step (s : Sys) (e : Event) (h : SysInv s) : SysInv (step s e) := by
  obtain ⟨h1, h2, h3, h4⟩ := h
  cases e with
  | startRun =>
    simp only [step]
    split
    · refine ⟨?_, ?_, ?_, ?_⟩ <;> intro hc <;> simp_all
    · exact ⟨h1, h2, h3, h4⟩
  | hook d =>
    simp only [step]
    split
    · exact ⟨fun hc => h1 hc, fun hc => h2 hc, fun hc => h3 hc, fun hc => h4 hc⟩
    · exact ⟨h1, h2, h3, h4⟩
  | finishOk =>
    simp only [step]
    split
    · refine ⟨?_, ?_, ?_, ?_⟩ <;> intro hc <;> simp_all
    · exact ⟨h1, h2, h3, h4⟩
  | finishExc e =>
    simp only [step]
    split
    · split
      · refine ⟨?_, ?_, ?_, ?_⟩ <;> intro hc <;> simp_all
      · refine ⟨?_, ?_, ?_, ?_⟩ <;> intro hc <;> simp_all
    · exact ⟨h1, h2, h3, h4⟩
  | cancel =>
    simp only [step, cancel_apply]
    split
    · exact ⟨h1, h2, h3, h4⟩
    · refine ⟨?_, ?_, ?_, ?_⟩ <;> intro hc <;> simp_all
  | taskKilled =>
    simp only [step]
    split
    · refine ⟨?_, ?_, ?_, ?_⟩ <;> intro hc <;> simp_all
    · exact ⟨h1, h2, h3, h4⟩

theorem sysInv_initVideo (id url download_path : String) :
    SysInv (initVideo id url download_path) := by
  refine ⟨?_, ?_, ?_, ?_⟩ <;> intro hc <;> simp_all [initVideo, make_job_entry]

theorem sysInv_runTrace (s : Sys) (tr : List Event) (h : SysInv s) :
    SysInv (runTrace s tr) := by
  induction tr generalizing s with
  | nil => exact h
  | cons e rest ih => exact ih (step s e) (sysInv_step s e h)

theorem le_roundHalfEven (x : ℚ) : ⌊x⌋ ≤ roundHalfEven x := by
  unfold roundHalfEven
  split_ifs <;> omega

theorem roundHalfEven_le (x : ℚ) : roundHalfEven x ≤ ⌊x⌋ + 1 := by
  unfold roundHalfEven
  split_ifs <;> omega

theorem roundHalfEven_mono {x y : ℚ} (h : x ≤ y) :
    roundHalfEven x ≤ roundHalfEven y := by
  have hf : ⌊x⌋ ≤ ⌊y⌋ := Int.floor_le_floor h
  rcases lt_or_eq_of_le hf with hlt | heq
  · calc roundHalfEven x ≤ ⌊x⌋ + 1 := roundHalfEven_le x
      _ ≤ ⌊y⌋ := by omega
      _ ≤ roundHalfEven y := le_roundHalfEven y
  · unfold roundHalfEven
    rw [← heq]
    split_ifs <;> first | omega | linarith

theorem round2_mono {x y : ℚ} (h : x ≤ y) : round2 x ≤ round2 y := by
  have h1 : roundHalfEven (x * 100) ≤ roundHalfEven (y * 100) :=
    roundHalfEven_mono (by linarith)
  have h2 : ((roundHalfEven (x * 100) : ℤ) : ℚ) ≤ ((roundHalfEven (y * 100) : ℤ) : ℚ) := by
    exact_mod_cast h1
  unfold round2
  linarith

theorem step_status_edge (s : Sys) (e : Event) (h : SysInv s) :
    (step s e).job.status = s.job.status ∨
      (isTerminal s.job.status = false ∧
        codeEdge s.job.status ((step s e).job.status) = true) := by
  obtain ⟨h1, h2, h3, h4⟩ := h
  cases e with
  | startRun =>
    simp only [step]
    split
    · rename_i hp
      right
      rcases h1 hp with hs | hs <;> simp [hs, isTerminal, codeEdge]
    · left; rfl
  | hook d =>
    simp only [step]
    split
    · left; rfl
    · left; rfl
  | finishOk =>
    simp only [step]
    split
    · rename_i hp
      right
      rcases h2 hp with hs | hs <;> simp [hs, isTerminal, codeEdge]
    · left; rfl
  | finishExc e =>
    simp only [step]
    split
    · rename_i hp
      split
      · right
        rcases h2 hp with hs | hs <;> simp [hs, isTerminal, codeEdge]
      · rename_i hflag
        right
        rcases h2 hp with hs | hs
        · simp [hs, isTerminal, codeEdge]
        · exact absurd (h4 hs) hflag
    · left; rfl
  | cancel =>
    simp only [step, cancel_apply]
    split
    · left; rfl
    · rename_i ht
      cases hs : s.job.status with
      | pending => right; simp [hs, isTerminal, codeEdge]
      | downloading => right; simp [hs, isTerminal, codeEdge]
      | cancel_requested => left; simp [hs]
      | completed => simp [hs, isTerminal] at ht
      | error => simp [hs, isTerminal] at ht
      | cancelled => simp [hs, isTerminal] at ht
  | taskKilled =>
    simp only [step]
    split
    · left; rfl
    · left; rfl

/-- C9: for every job id not present in the registry,
`get_download_status` and `cancel_download` return a not-found result
value and never raise an exception (both are total functions returning
the error dict), leaving the registry unchanged (`cancel_download`
returns the registry it was given). -/
theorem C9_unknown_id_not_found (r : Registry) (id : String)
    (h : rlookup r id = none) :
    get_download_status r id = .not_found id ∧
    cancel_download r id = (r, .not_found id) := by
  constructor
  · unfold get_download_status
    rw [h]
  · unfold cancel_download
    rw [h]

theorem C9_unknown_id_not_found_witness :
    rlookup ([] : Registry) "missing" = none ∧
    get_download_status [] "missing" = .not_found "missing" ∧
    cancel_download [] "missing" = ([], .not_found "missing") :=
  ⟨rfl, (C9_unknown_id_not_found [] "missing" rfl).1,
    (C9_unknown_id_not_found [] "missing" rfl).2⟩

/-- C10: for every existing job, the snapshots returned by
`get_download_status` and `list_downloads` never contain the internal
`task` field, and every other field of the job record appears in the
snapshot. -/
theorem C10_snapshots_hide_task (r : Registry) (j : Job)
    (h : rlookup r j.job_id = some j) :
    get_download_status r j.job_id = .snapshot (statusSnapshot (jobItems j)) ∧
    "task" ∉ (statusSnapshot (jobItems j)).map Prod.fst ∧
    (∀ snap ∈ list_downloads r, "task" ∉ snap.map Prod.fst) ∧
    (∀ k v, (k, v) ∈ jobItems j → k ≠ "task" →
      (k, v) ∈ statusSnapshot (jobItems j) ∧ (k, v) ∈ listSnapshot (jobItems j)) := by
  have hkeys : ∀ jj : Job, (statusSnapshot (jobItems jj)).map Prod.fst =
      ["job_id", "url", "status", "progress", "error_message", "output_path",
       "cancel_requested"] := fun jj => rfl
  have lkeys : ∀ jj : Job, (listSnapshot (jobItems jj)).map Prod.fst =
      ["job_id", "url", "status", "progress", "error_message", "output_path",
       "cancel_requested"] := fun jj => rfl
  refine ⟨?_, ?_, ?_, ?_⟩
  · unfold get_download_status
    rw [h]
  · rw [hkeys]
    decide
  · intro snap hsnap
    simp only [list_downloads, List.mem_map] at hsnap
    obtain ⟨jj, _, rfl⟩ := hsnap
    rw [lkeys]
    decide
  · intro k v hm hk
    constructor
    · simp only [statusSnapshot, List.mem_filter]
      exact ⟨hm, by simpa using hk⟩
    · simp only [listSnapshot, List.mem_filter]
      refine ⟨hm, ?_⟩
      simp [hk]

theorem C10_snapshots_hide_task_witness :
    rlookup [make_job_entry "j1" "u" "d"] (make_job_entry "j1" "u" "d").job_id =
      some (make_job_entry "j1" "u" "d") ∧
    get_download_status [make_job_entry "j1" "u" "d"] (make_job_entry "j1" "u" "d").job_id =
      .snapshot (statusSnapshot (jobItems (make_job_entry "j1" "u" "d"))) :=
  ⟨rfl, (C10_snapshots_hide_task [make_job_entry "j1" "u" "d"]
    (make_job_entry "j1" "u" "d") rfl).1⟩

/-- C5: `cancel_download` on a terminal job returns the
already-terminal no-op result and leaves the registry (hence every job
field) unchanged; on a non-terminal job it sets `cancel_requested` and
returns the accepted result, and a second call on the same job is
accepted again — never an error. -/
theorem C5_cancel_noop_and_idempotent (r : Registry) (id : String) (j : Job)
    (hj : rlookup r id = some j) :
    (isTerminal j.status = true →
      cancel_download r id = (r, .cannot_cancel j.status)) ∧
    (isTerminal j.status = false →
      (cancel_download r id).2 = .cancellation_requested ∧
      rlookup (cancel_download r id).1 id =
        some { j with cancel_requested := true, status := .cancel_requested } ∧
      (cancel_download (cancel_download r id).1 id).2 = .cancellation_requested) := by
  have hid : j.job_id = id := rlookup_job_id r id j hj
  constructor
  · intro ht
    unfold cancel_download
    rw [hj]
    simp [ht]
  · intro ht
    have hca : cancel_apply j =
        { j with cancel_requested := true, status := .cancel_requested } := by
      unfold cancel_apply
      simp [ht]
    have hlook : rlookup (rinsert r (cancel_apply j)) id =
        some { j with cancel_requested := true, status := .cancel_requested } := by
      rw [hca, ← hid]
      exact rlookup_rinsert_self r
        { j with cancel_requested := true, status := .cancel_requested }
    refine ⟨?_, ?_, ?_⟩
    · unfold cancel_download
      rw [hj]
      simp [ht]
    · unfold cancel_download
      rw [hj]
      simp only [ht, Bool.false_eq_true, if_false]
      exact hlook
    · have hr1 : (cancel_download r id).1 = rinsert r (cancel_apply j) := by
        unfold cancel_download
        rw [hj]
        simp [ht]
      rw [hr1]
      unfold cancel_download
      rw [hlook]
      simp [isTerminal]

theorem C5_cancel_noop_and_idempotent_witness :
    rlookup [make_job_entry "j1" "u" "d"] "j1" = some (make_job_entry "j1" "u" "d") ∧
    isTerminal (make_job_entry "j1" "u" "d").status = false ∧
    (cancel_download [make_job_entry "j1" "u" "d"] "j1").2 = .cancellation_requested := by
  refine ⟨rfl, rfl, ?_⟩
  exact ((C5_cancel_noop_and_idempotent [make_job_entry "j1" "u" "d"] "j1"
    (make_job_entry "j1" "u" "d") rfl).2 rfl).1

/-- C6 counterexample: `download_video` with an empty URL performs no
validation at all — it returns a job id and the job is created in the
registry (as the claim's required synchronous rejection does not
happen, the claim is false on the code). -/
theorem C6_counterexample :
    (download_video [] "job-0" "" "./downloads" 0).2 = "job-0" ∧
    rlookup (download_video [] "job-0" "" "./downloads" 0).1 "job-0" =
      some { make_job_entry "job-0" "" "./downloads" with task := some 0 } ∧
    (make_job_entry "job-0" "" "./downloads").url = "" ∧
    (make_job_entry "job-0" "" "./downloads").status = .pending := by
  refine ⟨rfl, ?_, rfl, rfl⟩
  rfl

/-- C6 amended: `download_video` and `download_playlist` validate
nothing — every request, an empty URL included, synchronously creates a
`pending` job in the registry and returns its job id; no validation
error is ever reported to the caller at submit time. -/
theorem C6_amended_no_validation (r : Registry) (id url download_path : String)
    (taskH : ℕ) :
    (download_video r id url download_path taskH).2 = id ∧
    rlookup (download_video r id url download_path taskH).1 id =
      some { make_job_entry id url download_path with task := some taskH } ∧
    (download_playlist r id url download_path taskH).2 = id ∧
    rlookup (download_playlist r id url download_path taskH).1 id =
      some { make_job_entry id url download_path with task := some taskH } ∧
    (make_job_entry id url download_path).status = .pending := by
  have h := rlookup_rinsert_self (rinsert r (make_job_entry id url download_path))
    { make_job_entry id url download_path with task := some taskH }
  exact ⟨rfl, h, rfl, h, rfl⟩

/-- C3: for a `'downloading'` sample carrying a byte count, the stored
percent is `100 * bytesDownloaded / bytesTotal` rounded to 2 decimal
places when the resolved total is known and positive, and `0.0` when it
is unknown (absent, or the falsy value 0); a `'finished'` sample forces
the stored percent to `100.0` regardless of byte counts. -/
theorem C3_percent_computation (j : Job) (d : RawSample) :
    (∀ dl : ℕ, d.status = some "downloading" → d.downloaded_bytes = some dl →
      (progress_hook j d).1.progress.percent =
        (match pyOr d.total_bytes d.total_bytes_estimate with
         | some t => if t = 0 then 0 else round2 (100 * (dl : ℚ) / (t : ℚ))
         | none => 0)) ∧
    (d.status = some "finished" →
      (progress_hook j d).1.progress.percent = 100) := by
  constructor
  · intro dl hs hdl
    cases hpy : pyOr d.total_bytes d.total_bytes_estimate with
    | none =>
      simp [progress_hook, hookProgress, hs, hpy]
    | some t =>
      by_cases ht : t = 0
      · simp [progress_hook, hookProgress, hs, hpy, ht]
      · have harith : (dl : ℚ) / (t : ℚ) * 100 = 100 * (dl : ℚ) / (t : ℚ) := by
          ring
        simp [progress_hook, hookProgress, hs, hpy, ht, hdl, harith]
  · intro hs
    simp [progress_hook, hookProgress, hs]

theorem C3_percent_computation_witness :
    (progress_hook (make_job_entry "j1" "u" "d")
        ⟨some "downloading", some 30, some 100, none⟩).1.progress.percent =
      round2 (100 * (30 : ℚ) / (100 : ℚ)) ∧
    (progress_hook (make_job_entry "j1" "u" "d")
        ⟨some "finished", none, none, none⟩).1.progress.percent = 100 := by
  constructor
  · have h := (C3_percent_computation (make_job_entry "j1" "u" "d")
      ⟨some "downloading", some 30, some 100, none⟩).1 30 rfl rfl
    rw [h]
    simp only [pyOr]
    norm_num
  · exact (C3_percent_computation (make_job_entry "j1" "u" "d")
      ⟨some "finished", none, none, none⟩).2 rfl

/-- C7: with no cancellation requested, the progress hook never raises
an exception into the fetch, whatever the sample's shape (the `except`
clause swallows the one failing computation); and the malformed sample
(a usable total but no `downloaded_bytes` key, the `TypeError` path)
leaves the whole job — last known good progress included — unchanged. -/
theorem C7_hook_contained (j : Job) (d : RawSample)
    (h : j.cancel_requested = false) :
    (progress_hook j d).2 = false ∧
    (∀ t : ℕ, d.status = some "downloading" →
      pyOr d.total_bytes d.total_bytes_estimate = some t → t ≠ 0 →
      d.downloaded_bytes = none →
      (progress_hook j d).1 = j) := by
  constructor
  · rw [progress_hook_raises, h]
  · intro t hs hpy ht hdl
    simp [progress_hook, hookProgress, hs, hpy, ht, hdl]

theorem C7_hook_contained_witness :
    (make_job_entry "j1" "u" "d").cancel_requested = false ∧
    (progress_hook (make_job_entry "j1" "u" "d")
        ⟨some "downloading", none, some 100, none⟩).2 = false ∧
    (progress_hook (make_job_entry "j1" "u" "d")
        ⟨some "downloading", none, some 100, none⟩).1 = make_job_entry "j1" "u" "d" := by
  refine ⟨rfl, ?_, ?_⟩
  · exact (C7_hook_contained (make_job_entry "j1" "u" "d")
      ⟨some "downloading", none, some 100, none⟩ rfl).1
  · exact (C7_hook_contained (make_job_entry "j1" "u" "d")
      ⟨some "downloading", none, some 100, none⟩ rfl).2 100 rfl rfl (by decide) rfl

/-- C1 counterexample: the spec's state machine has no edge out of
`pending` other than `pending → downloading`, but a `cancel_download`
landing on a freshly submitted job (its background task not yet
started) moves the externally visible status straight from `pending` to
`cancel_requested`. -/
theorem C1_counterexample :
    (initVideo "j" "u" "d").job.status = .pending ∧
    (runTrace (initVideo "j" "u" "d") [.cancel]).job.status = .cancel_requested ∧
    claimEdge .pending .cancel_requested = false := by
  refine ⟨rfl, ?_, rfl⟩
  rfl

/-- C1 amended: every job starts in `pending`, and along any
interleaved execution the status changes only along the code's edges:
`pending → downloading`, `pending → cancel_requested` (cancel before
the task starts), `cancel_requested → downloading` (the task starts
after an early cancel), `downloading → cancel_requested`, and
`downloading | cancel_requested → {completed, cancelled}` plus
`downloading → error`; no transition ever leaves a terminal state. -/
theorem C1_amended_lifecycle (id url download_path : String)
    (tr : List Event) (e : Event) :
    (initVideo id url download_path).job.status = .pending ∧
    ((step (runTrace (initVideo id url download_path) tr) e).job.status =
        (runTrace (initVideo id url download_path) tr).job.status ∨
      (isTerminal (runTrace (initVideo id url download_path) tr).job.status = false ∧
        codeEdge ((runTrace (initVideo id url download_path) tr).job.status)
          ((step (runTrace (initVideo id url download_path) tr) e).job.status) = true)) :=
  ⟨rfl, step_status_edge _ e (sysInv_runTrace _ tr (sysInv_initVideo id url download_path))⟩

/-- C2: when the blocking fetch call terminates by raising an
exception, the `except` block classifies the outcome by reading
`cancel_requested` at that moment: `cancelled` (with the non-empty
message `'Cancelled by user'`) exactly when the flag is set, `error`
otherwise; moreover, along any trace, a status of `cancelled` is
observable only with `cancel_requested` already true. -/
theorem C2_cancel_precedence (id url download_path : String)
    (tr : List Event) (e : PyExc)
    (h : (runTrace (initVideo id url download_path) tr).phase = .running) :
    ((step (runTrace (initVideo id url download_path) tr) (.finishExc e)).job.status =
        if (runTrace (initVideo id url download_path) tr).job.cancel_requested
        then .cancelled else .error) ∧
    ((step (runTrace (initVideo id url download_path) tr) (.finishExc e)).job.error_message =
        if (runTrace (initVideo id url download_path) tr).job.cancel_requested
        then some "Cancelled by user" else some (formatExceptionOnly e)) ∧
    ("Cancelled by user" ≠ "") ∧
    ((runTrace (initVideo id url download_path) tr).job.status ≠ .cancelled ∨
      (runTrace (initVideo id url download_path) tr).job.cancel_requested = true) := by
  refine ⟨?_, ?_, by decide, ?_⟩
  · cases hc : (runTrace (initVideo id url download_path) tr).job.cancel_requested <;>
      simp [step, h, hc]
  · cases hc : (runTrace (initVideo id url download_path) tr).job.cancel_requested <;>
      simp [step, h, hc]
  · have hinv := sysInv_runTrace _ tr (sysInv_initVideo id url download_path)
    by_cases hst : (runTrace (initVideo id url download_path) tr).job.status = .cancelled
    · exact Or.inr (hinv.2.2.1 hst)
    · exact Or.inl hst

theorem C2_cancel_precedence_witness :
    (runTrace (initVideo "j" "u" "d") [.cancel, .startRun]).phase = .running ∧
    (step (runTrace (initVideo "j" "u" "d") [.cancel, .startRun])
        (.finishExc ⟨"E", "boom"⟩)).job.status = .cancelled := by
  constructor
  · rfl
  · have h := (C2_cancel_precedence "j" "u" "d" [.cancel, .startRun]
      ⟨"E", "boom"⟩ rfl).1
    rw [h]
    rfl

theorem round2_intCast (m : ℤ) : round2 ((m : ℚ)) = (m : ℚ) := by
  unfold round2 roundHalfEven
  have h : ((m : ℚ) * 100) = ((m * 100 : ℤ) : ℚ) := by push_cast; ring
  rw [h, Int.floor_intCast]
  norm_num

/-- C8 counterexample: on a `DownloadError` carrying the message
`'network unreachable'` with no cancellation requested, the job ends in
status `error`, but the stored `error_message` is the formatted
exception line `'yt_dlp.utils.DownloadError: network unreachable'`
(type-name prefix included), not the bare message the claim requires. -/
theorem C8_counterexample :
    (runTrace (initVideo "j" "u" "d")
        [.startRun, .finishExc ⟨"yt_dlp.utils.DownloadError", "network unreachable"⟩]).job.status
      = .error ∧
    (runTrace (initVideo "j" "u" "d")
        [.startRun, .finishExc ⟨"yt_dlp.utils.DownloadError", "network unreachable"⟩]).job.error_message
      = some "yt_dlp.utils.DownloadError: network unreachable" ∧
    some "yt_dlp.utils.DownloadError: network unreachable" ≠ some "network unreachable" := by
  refine ⟨rfl, ?_, by decide⟩
  decide

/-- C8 amended: if the fetch raises `DownloadError` with message
`'network unreachable'` while no cancellation was requested, the final
status is `error` and the stored `errorMessage` is the single formatted
exception line — the exception type name, a colon-space, then
`'network unreachable'` — rather than the bare message. -/
theorem C8_amended_formatted_message (id url download_path : String)
    (tr : List Event)
    (h1 : (runTrace (initVideo id url download_path) tr).phase = .running)
    (h2 : (runTrace (initVideo id url download_path) tr).job.cancel_requested = false) :
    (step (runTrace (initVideo id url download_path) tr)
        (.finishExc ⟨"yt_dlp.utils.DownloadError", "network unreachable"⟩)).job.status
      = .error ∧
    (step (runTrace (initVideo id url download_path) tr)
        (.finishExc ⟨"yt_dlp.utils.DownloadError", "network unreachable"⟩)).job.error_message
      = some ("yt_dlp.utils.DownloadError" ++ ": " ++ "network unreachable") := by
  constructor
  · simp [step, h1, h2]
  · simp only [step, h1, h2]
    simp [formatExceptionOnly]

theorem C8_amended_formatted_message_witness :
    (runTrace (initVideo "j" "u" "d") [.startRun]).phase = .running ∧
    (runTrace (initVideo "j" "u" "d") [.startRun]).job.cancel_requested = false ∧
    (step (runTrace (initVideo "j" "u" "d") [.startRun])
        (.finishExc ⟨"yt_dlp.utils.DownloadError", "network unreachable"⟩)).job.status
      = .error :=
  ⟨rfl, rfl,
    (C8_amended_formatted_message "j" "u" "d" [.startRun] rfl rfl).1⟩

/-- C4 counterexample: percent is not non-decreasing for every sample
sequence — a `'downloading'` sample with both total fields absent
resets the stored percent to `0.0` after an earlier sample had set it
to `50.0`. -/
theorem C4_counterexample :
    (runTrace (initVideo "j" "u" "d")
        [.startRun, .hook ⟨some "downloading", some 50, some 100, none⟩]).job.progress.percent
      = 50 ∧
    (runTrace (initVideo "j" "u" "d")
        [.startRun, .hook ⟨some "downloading", some 50, some 100, none⟩,
         .hook ⟨some "downloading", none, none, none⟩]).job.progress.percent
      = 0 ∧
    ¬ ((50 : ℚ) ≤ 0) := by
  refine ⟨?_, rfl, by norm_num⟩
  have e : ((50 : ℕ) : ℚ) / ((100 : ℕ) : ℚ) * 100 = ((50 : ℤ) : ℚ) := by
    norm_num
  calc (runTrace (initVideo "j" "u" "d")
        [.startRun, .hook ⟨some "downloading", some 50, some 100, none⟩]).job.progress.percent
      = round2 (((50 : ℕ) : ℚ) / ((100 : ℕ) : ℚ) * 100) := rfl
    _ = round2 ((50 : ℤ) : ℚ) := by rw [e]
    _ = ((50 : ℤ) : ℚ) := round2_intCast 50
    _ = 50 := by norm_num

/-- C4 amended: the stored percent is non-decreasing across successive
`'downloading'` samples that resolve to a positive total and whose
`bytesDownloaded / bytesTotal` ratio is non-decreasing (`round2` is
monotone); a `'downloading'` sample without a positive resolved total
instead resets the percent to `0.0`, so the unrestricted claim fails. -/
theorem C4_amended_monotone (j : Job) (d1 d2 : RawSample) (dl1 t1 dl2 t2 : ℕ)
    (h1s : d1.status = some "downloading") (h1d : d1.downloaded_bytes = some dl1)
    (h1t : pyOr d1.total_bytes d1.total_bytes_estimate = some t1) (h1z : t1 ≠ 0)
    (h2s : d2.status = some "downloading") (h2d : d2.downloaded_bytes = some dl2)
    (h2t : pyOr d2.total_bytes d2.total_bytes_estimate = some t2) (h2z : t2 ≠ 0)
    (hmono : (dl1 : ℚ) / (t1 : ℚ) ≤ (dl2 : ℚ) / (t2 : ℚ)) :
    (progress_hook j d1).1.progress.percent ≤
      (progress_hook (progress_hook j d1).1 d2).1.progress.percent := by
  have e1 : (progress_hook j d1).1.progress.percent =
      round2 ((dl1 : ℚ) / (t1 : ℚ) * 100) := by
    simp [progress_hook, hookProgress, h1s, h1t, h1d, h1z]
  have e2 : (progress_hook (progress_hook j d1).1 d2).1.progress.percent =
      round2 ((dl2 : ℚ) / (t2 : ℚ) * 100) := by
    simp [progress_hook, hookProgress, h2s, h2t, h2d, h2z]
  rw [e1, e2]
  exact round2_mono (by linarith)

theorem C4_amended_monotone_witness :
    (progress_hook (make_job_entry "j1" "u" "d")
        ⟨some "downloading", some 30, some 100, none⟩).1.progress.percent ≤
      (progress_hook (progress_hook (make_job_entry "j1" "u" "d")
          ⟨some "downloading", some 30, some 100, none⟩).1
        ⟨some "downloading", some 70, some 100, none⟩).1.progress.percent :=
  C4_amended_monotone (make_job_entry "j1" "u" "d")
    ⟨some "downloading", some 30, some 100, none⟩
    ⟨some "downloading", some 70, some 100, none⟩
    30 100 70 100 rfl rfl rfl (by decide) rfl rfl rfl (by decide) (by norm_num)
